import Mathlib

/-!
Shallow embedding of the guardrail validation engine of the
gcal-reschedule-agent repository, translated from
`src/config/guardrails.ts`, `src/lib/google/calendarClient.ts` and
`src/lib/guardrails/validateReschedule.ts`.

Modelling conventions:

* instants are exact integer Unix milliseconds (`Int`); the fractional hour
  counts the source computes on IEEE-754 doubles are idealised as exact
  rationals (`ℚ`);
* a luxon `DateTime` is an instant paired with a zone; zones are modelled as
  fixed UTC offsets looked up in an ambient zone database
  `tzdb : String → Zone` (the IANA database is an external collaborator of
  the engine, so it is a parameter);
* `DateTime.now()` is passed in explicitly as a `now : Millis` parameter;
* the ISO timestamp strings `proposedStartISO` / `proposedEndISO` of
  `ValidationInput` are represented by the instants they denote: on every
  code path of the engine only the denoted instant and the evaluation zone
  are consumed;
* the two remote Google Calendar operations (`freebusy.query` and
  `events.list`) are supplied as a `CalendarEnv` of functions returning
  `Except String _`; a rejected promise (a throw) is an `Except.error`;
* `Violation.details` is an open diagnostic map in the source; the model
  keeps its `evaluationTimeZone` entry (the only detail field a claim
  mentions) and drops the remaining diagnostic-only entries.
-/

namespace Gcal

deriving instance DecidableEq for Except

/-! ### Decimal rendering of numbers (JS template-string interpolation) -/

/-- Decimal digit character for `n % 10`. -/
def digitChar (n : ℕ) : Char := Char.ofNat (48 + n % 10)

/-- Fuel-indexed decimal rendering; the fuel bound keeps the recursion
structural so that closed evaluations reduce in the kernel. -/
def natStrAux : ℕ → ℕ → String
  | 0, _ => ""
  | fuel + 1, n =>
    if n < 10 then (digitChar n).toString
    else natStrAux fuel (n / 10) ++ (digitChar (n % 10)).toString

/-- Decimal rendering of a natural, as JS renders a non-negative integer. -/
def natStr (n : ℕ) : String := natStrAux (n + 1) n

/-- Decimal rendering of an integer, as JS renders an integral number. -/
def intStr (i : ℤ) : String := if i < 0 then "-" ++ natStr i.natAbs else natStr i.toNat

/-- Two-digit zero padding, as luxon `toFormat("HH")` / `toFormat("mm")`. -/
def pad2 (n : ℕ) : String := if n < 10 then "0" ++ natStr n else natStr n

/-- Rendering of a policy number in a template string. The policies the
engine exercises carry integral `minNoticeHours`, on which this agrees with
the JS number-to-string conversion; a non-integral rational is rendered as a
fraction (diagnostic text only, no claim depends on it). -/
def renderNum (q : ℚ) : String :=
  if q.den = 1 then intStr q.num else intStr q.num ++ "/" ++ natStr q.den

/-- ECMA `Number.prototype.toFixed(1)` on a non-negative rational: the
integer n closest to `10*q` (ties to the larger) printed with one decimal. -/
def toFixed1Abs (q : ℚ) : String :=
  intStr (⌊10 * q + 1 / 2⌋ / 10) ++ "." ++ intStr (⌊10 * q + 1 / 2⌋ % 10)

/-- ECMA `Number.prototype.toFixed(1)`, idealised over exact rationals
(the source applies it to an IEEE-754 double). -/
def toFixed1 (q : ℚ) : String :=
  if q < 0 then "-" ++ toFixed1Abs (-q) else toFixed1Abs q

/-! ### Time model (luxon `DateTime` over a fixed-offset zone database) -/

/-- Milliseconds since the Unix epoch. -/
abbrev Millis := Int

/-- A timezone, modelled by its fixed UTC offset in minutes. -/
structure Zone where
  offsetMinutes : ℤ
deriving DecidableEq, Repr

/-- A luxon `DateTime`: an instant together with the zone used to read its
wall-clock fields. Comparisons between `DateTime`s compare instants. -/
structure DT where
  ts : Millis
  zone : Zone
deriving DecidableEq, Repr

/-- luxon `setZone`: same instant, new zone. -/
def DT.setZone (d : DT) (z : Zone) : DT := ⟨d.ts, z⟩

/-- Local wall-clock milliseconds (instant shifted by the zone offset). -/
def DT.localMs (d : DT) : ℤ := d.ts + d.zone.offsetMinutes * 60000

/-- Local calendar day index (days since 1970-01-01 in the zone). -/
def DT.localDay (d : DT) : ℤ := Int.fdiv d.localMs 86400000

/-- Milliseconds elapsed since local midnight. -/
def DT.msOfDay (d : DT) : ℕ := (Int.emod d.localMs 86400000).toNat

/-- Local hour of day. -/
def DT.localHour (d : DT) : ℕ := d.msOfDay / 3600000

/-- Local minute of hour. -/
def DT.localMinute (d : DT) : ℕ := d.msOfDay % 3600000 / 60000

/-- luxon `set({ hour, minute, second: 0, millisecond: 0 })`: the instant
with the same local calendar date and the given local time of day. -/
def DT.set (d : DT) (hour minute : ℕ) : DT :=
  ⟨d.localDay * 86400000 + hour * 3600000 + minute * 60000
      - d.zone.offsetMinutes * 60000,
    d.zone⟩

/-- luxon `weekday`: ISO weekday number, 1 = Monday … 7 = Sunday
(1970-01-01 was a Thursday). -/
def DT.weekday (d : DT) : ℕ :=
  let w := ((d.localDay + 4) % 7).toNat
  if w = 0 then 7 else w

/-- luxon `toFormat("HH:mm")`. -/
def fmtHM (d : DT) : String := pad2 d.localHour ++ ":" ++ pad2 d.localMinute

/-! ### Data model (`calendarClient.ts` and `guardrails.ts`) -/

/-- Attendee entry of a Google Calendar event (`GCalEvent.attendees`). -/
structure Attendee where
  self : Option Bool
  responseStatus : Option String
deriving DecidableEq, Repr

/-- The `start` / `end` object of a Google Calendar event. -/
structure EventDateTime where
  dateTime : Option String
  date : Option String
  timeZone : Option String
deriving DecidableEq, Repr

/-- `GCalEvent` from `src/lib/google/calendarClient.ts`. -/
structure GCalEvent where
  id : String
  summary : Option String
  start : EventDateTime
  «end» : EventDateTime
  status : Option String
  attendees : Option (List Attendee)
deriving DecidableEq, Repr

/-- `BusinessHours` from `src/config/guardrails.ts`: wall-clock strings such
as `"09:00"`. -/
structure BusinessHours where
  start : String
  «end» : String
deriving DecidableEq, Repr

/-- `GuardrailPolicy` from `src/config/guardrails.ts`. The weekday-keyed
partial record `businessHoursByWeekday` is modelled as an association list
(the JS object: unique keys in insertion order, looked up by first match);
`conflictMethod` stays a plain string exactly as a runtime value parsed from
`GUARDRAILS_JSON` would be. -/
structure GuardrailPolicy where
  minNoticeHours : ℚ
  policyTimeZone : Option String
  businessHoursByWeekday : List (ℤ × BusinessHours)
  calendarsToCheck : Option (List String)
  treatTentativeAsBusy : Bool
  ignoreDeclined : Bool
  conflictMethod : String
deriving DecidableEq, Repr

/-- `defaultPolicy` from `src/config/guardrails.ts`. -/
def defaultPolicy : GuardrailPolicy :=
  { minNoticeHours := 24
    policyTimeZone := none
    businessHoursByWeekday :=
      [(1, ⟨"09:00", "17:00"⟩),
       (2, ⟨"09:00", "17:00"⟩),
       (3, ⟨"09:00", "17:00"⟩),
       (4, ⟨"09:00", "17:00"⟩),
       (5, ⟨"09:00", "17:00"⟩)]
    calendarsToCheck := some []
    treatTentativeAsBusy := true
    ignoreDeclined := true
    conflictMethod := "freebusy" }

/-- The object parsed from the `GUARDRAILS_JSON` environment variable: a
partial policy whose present fields override `defaultPolicy` field-wise in
the spread `{ ...defaultPolicy, ...parsed }` of `loadPolicy`. -/
structure PolicyOverride where
  minNoticeHours : Option ℚ := none
  policyTimeZone : Option (Option String) := none
  businessHoursByWeekday : Option (List (ℤ × BusinessHours)) := none
  calendarsToCheck : Option (Option (List String)) := none
  treatTentativeAsBusy : Option Bool := none
  ignoreDeclined : Option Bool := none
  conflictMethod : Option String := none
deriving DecidableEq, Repr

/-- `loadPolicy` from `src/config/guardrails.ts`. `guardrailsJson = none`
models both an unset `GUARDRAILS_JSON` and one that fails to parse (either
way the source returns `defaultPolicy`); `some parsed` models a parse
success, merged over the default by object spread. The source performs no
validation here. -/
def loadPolicy (guardrailsJson : Option PolicyOverride) : GuardrailPolicy :=
  match guardrailsJson with
  | none => defaultPolicy
  | some parsed =>
    { minNoticeHours := parsed.minNoticeHours.getD defaultPolicy.minNoticeHours
      policyTimeZone := parsed.policyTimeZone.getD defaultPolicy.policyTimeZone
      businessHoursByWeekday :=
        parsed.businessHoursByWeekday.getD defaultPolicy.businessHoursByWeekday
      calendarsToCheck := parsed.calendarsToCheck.getD defaultPolicy.calendarsToCheck
      treatTentativeAsBusy :=
        parsed.treatTentativeAsBusy.getD defaultPolicy.treatTentativeAsBusy
      ignoreDeclined := parsed.ignoreDeclined.getD defaultPolicy.ignoreDeclined
      conflictMethod := parsed.conflictMethod.getD defaultPolicy.conflictMethod }

/-- The anchored regex `^([0-1]?[0-9]|2[0-3]):[0-5][0-9]$` of
`validatePolicy`, returning the total minutes
`parseInt(hour) * 60 + parseInt(minute)` the source computes from the
captured groups when the string matches. -/
def hhmmMatch (s : String) : Option ℕ :=
  match s.data with
  | [h, c, m1, m2] =>
    if c == ':' && h.isDigit && ('0' ≤ m1 && m1 ≤ '5') && m2.isDigit then
      some ((h.toNat - 48) * 60 + (m1.toNat - 48) * 10 + (m2.toNat - 48))
    else none
  | [h1, h2, c, m1, m2] =>
    if c == ':' &&
        (((h1 == '0' || h1 == '1') && h2.isDigit) ||
          (h1 == '2' && ('0' ≤ h2 && h2 ≤ '3'))) &&
        ('0' ≤ m1 && m1 ≤ '5') && m2.isDigit then
      some (((h1.toNat - 48) * 10 + (h2.toNat - 48)) * 60
        + (m1.toNat - 48) * 10 + (m2.toNat - 48))
    else none
  | _ => none

/-- The per-weekday-entry error accumulation of `validatePolicy`
(`src/config/guardrails.ts`, the `for … of Object.entries(...)` body). -/
def weekdayEntryErrors (day : ℤ) (hours : BusinessHours) : List String :=
  if day < 0 ∨ day > 6 then ["Invalid weekday: " ++ intStr day]
  else if hours.start == "" || hours.«end» == "" then
    ["Missing start or end time for weekday " ++ intStr day]
  else
    (if (hhmmMatch hours.start).isNone then
      ["Invalid start time format for weekday " ++ intStr day ++ ": " ++ hours.start]
    else []) ++
    (if (hhmmMatch hours.«end»).isNone then
      ["Invalid end time format for weekday " ++ intStr day ++ ": " ++ hours.«end»]
    else []) ++
    (match hhmmMatch hours.start, hhmmMatch hours.«end» with
     | some startMinutes, some endMinutes =>
       if startMinutes ≥ endMinutes then
         ["Start time must be before end time for weekday " ++ intStr day]
       else []
     | _, _ => [])

/-- `validatePolicy` from `src/config/guardrails.ts`. Timezone validity is
decided by the runtime ICU database (`new Date().toLocaleString` throwing),
an external collaborator modelled as `isValidTimeZone`. -/
def validatePolicy (isValidTimeZone : String → Bool) (policy : GuardrailPolicy) :
    List String :=
  (if policy.minNoticeHours < 0 then ["minNoticeHours must be non-negative"] else []) ++
  (match policy.policyTimeZone with
   | some tz =>
     if tz == "" then []
     else if isValidTimeZone tz then [] else ["Invalid timezone: " ++ tz]
   | none => []) ++
  (policy.businessHoursByWeekday.map fun e => weekdayEntryErrors e.1 e.2).flatten ++
  (if policy.conflictMethod == "freebusy" || policy.conflictMethod == "list" then []
   else ["conflictMethod must be either \"freebusy\" or \"list\""])

/-! ### Validation engine (`src/lib/guardrails/validateReschedule.ts`) -/

/-- `ValidationInput`. The ISO strings `proposedStartISO` / `proposedEndISO`
are carried as the instants they denote (see the header comment). -/
structure ValidationInput where
  originalEvent : GCalEvent
  proposedStart : Millis
  proposedEnd : Millis
  userTimeZone : Option String
  calendarId : String
  accessToken : String
deriving DecidableEq, Repr

/-- Violation codes of the engine. -/
inductive VCode where
  | BUSINESS_HOURS_OUTSIDE
  | NOTICE_TOO_SOON
  | TIME_CONFLICT
deriving DecidableEq, Repr

/-- `Violation`. `evaluationTimeZone` models the `evaluationTimeZone` entry
of the open `details` map (present for the notice and business-hours
violations, absent for `TIME_CONFLICT`); the remaining diagnostic-only
`details` entries are not modelled. -/
structure Violation where
  code : VCode
  message : String
  evaluationTimeZone : Option String
deriving DecidableEq, Repr

/-- JS `a || b` on an optional string: `undefined` and `""` are falsy. -/
def jsOrStr (a : Option String) (b : String) : String :=
  match a with
  | some s => if s = "" then b else s
  | none => b

/-- Evaluation timezone of the notice check (line 49):
`policy.policyTimeZone || input.userTimeZone || 'UTC'`. -/
def noticeEvalTZ (policy : GuardrailPolicy) (input : ValidationInput) : String :=
  jsOrStr policy.policyTimeZone (jsOrStr input.userTimeZone "UTC")

/-- The hour difference `start.diff(nowServer, 'hours').hours` computed by
the notice check: luxon's diff in a pure time unit is the exact millisecond
difference of the two instants divided by 3 600 000, independent of either
operand's zone. -/
def noticeDiffHours (now : Millis) (input : ValidationInput) : ℚ :=
  ((input.proposedStart - now : ℤ) : ℚ) / 3600000

/-- `checkNoticePeriod` (lines 45–70). -/
def checkNoticePeriod (tzdb : String → Zone) (now : Millis)
    (input : ValidationInput) (policy : GuardrailPolicy) : Option Violation :=
  let evalTimeZone := noticeEvalTZ policy input
  let nowServer : DT := (DT.mk now (tzdb "UTC")).setZone (tzdb evalTimeZone)
  let start : DT := DT.mk input.proposedStart (tzdb "UTC")
  let diffHours : ℚ := ((start.ts - nowServer.ts : ℤ) : ℚ) / 3600000
  if diffHours < policy.minNoticeHours then
    some { code := .NOTICE_TOO_SOON
           message := "Proposed time is only " ++ toFixed1 diffHours ++
             "h from now; policy requires ≥ " ++ renderNum policy.minNoticeHours ++ "h."
           evaluationTimeZone := some evalTimeZone }
  else none

/-- Evaluation timezone of the business-hours check (line 76):
`policy.policyTimeZone || input.originalEvent.start.timeZone || 'UTC'`. -/
def bhEvalTZ (policy : GuardrailPolicy) (input : ValidationInput) : String :=
  jsOrStr policy.policyTimeZone (jsOrStr input.originalEvent.start.timeZone "UTC")

/-- The weekday index computed at line 81: luxon weekday (1 = Monday …
7 = Sunday) reduced `% 7`, giving 0 = Sunday … 6 = Saturday. -/
def bhWeekday (tzdb : String → Zone) (input : ValidationInput)
    (policy : GuardrailPolicy) : ℕ :=
  (DT.mk input.proposedStart (tzdb (bhEvalTZ policy input))).weekday % 7

/-- `getWeekdayName` (lines 227–230); an out-of-range index renders as JS
renders `undefined`, though `% 7` keeps every actual call in range. -/
def getWeekdayName (weekday : ℕ) : String :=
  ["Sunday", "Monday", "Tuesday", "Wednesday", "Thursday", "Friday",
   "Saturday"].getD weekday "undefined"

/-- `businessHours.start.split(':').map(Number)` followed by the
`[hour, minute]` destructuring (lines 99–100): the first two `:`-separated
fields when both are plain digit strings. A field on which JS `Number`
produces `NaN` (or a missing field) makes the later `set` produce an invalid
luxon `DateTime`, whose comparisons are all false, so the check passes;
that whole degenerate path is collapsed into the `none` result of
`splitClock`. JS `"a:b:c".split(':')` keeps empty fields, which
`splitFields` reproduces. -/
def splitFields (sep : Char) : List Char → List (List Char)
  | [] => [[]]
  | c :: rest =>
    match splitFields sep rest with
    | [] => [[]]
    | f :: fs => if c = sep then [] :: f :: fs else (c :: f) :: fs

def splitClock (s : String) : Option (ℕ × ℕ) :=
  match (splitFields ':' s.data).map (fun f =>
    if f ≠ [] ∧ f.all Char.isDigit then
      some (f.foldl (fun a c => a * 10 + (c.toNat - 48)) 0)
    else none) with
  | some h :: some m :: _ => some (h, m)
  | _ => none

/-- `checkBusinessHours` (lines 72–124). -/
def checkBusinessHours (tzdb : String → Zone) (input : ValidationInput)
    (policy : GuardrailPolicy) : Option Violation :=
  let evalTimeZone := bhEvalTZ policy input
  let z := tzdb evalTimeZone
  let localStart : DT := DT.mk input.proposedStart z
  let localEnd : DT := DT.mk input.proposedEnd z
  let weekday : ℕ := bhWeekday tzdb input policy
  match List.lookup (weekday : ℤ) policy.businessHoursByWeekday with
  | none =>
    some { code := .BUSINESS_HOURS_OUTSIDE
           message := "No business hours defined for " ++ getWeekdayName weekday ++ "."
           evaluationTimeZone := some evalTimeZone }
  | some businessHours =>
    match splitClock businessHours.start, splitClock businessHours.«end» with
    | some (startHour, startMinute), some (endHour, endMinute) =>
      let openTime := localStart.set startHour startMinute
      let closeTime := localStart.set endHour endMinute
      if localStart.ts < openTime.ts ∨ localEnd.ts > closeTime.ts then
        some { code := .BUSINESS_HOURS_OUTSIDE
               message := "Proposed time " ++ fmtHM localStart ++ "–" ++ fmtHM localEnd ++
                 " is outside business hours " ++ businessHours.start ++ "–" ++
                 businessHours.«end» ++ " (" ++ evalTimeZone ++ ")."
               evaluationTimeZone := some evalTimeZone }
      else none
    | _, _ => none

/-! ### Availability prober (`calendarClient.listEvents` and the conflict
checks of `validateReschedule.ts`) -/

/-- A busy interval reported by the freebusy API (ISO strings, opaque here:
the overlap is computed remotely in this strategy). -/
structure BusyInterval where
  start : String
  «end» : String
deriving DecidableEq, Repr

/-- One calendar of a freebusy response; `busy` is optional because the
source guards `calendar.busy && calendar.busy.length > 0`. -/
structure FreeBusyCalendar where
  calendarId : String
  busy : Option (List BusyInterval)
deriving DecidableEq, Repr

/-- The two remote Google Calendar data sources consumed by the prober:
`freebusyQuery` is the aggregate `freebusy.query` call of `checkFreeBusy`
(already defaulted with `|| []`), `eventsListItems` is the per-calendar
`events.list` call of `listEvents` (`response.data.items || []`). An
`Except.error` models the promise rejecting. -/
structure CalendarEnv where
  freebusyQuery : List String → Millis → Millis → Except String (List FreeBusyCalendar)
  eventsListItems : String → Millis → Millis → Except String (List GCalEvent)

/-- The keep-predicate of the `ignoreDeclined` filter in `listEvents`
(lines 82–88 of `calendarClient.ts`): keep unless a `self` attendee exists
and has declined. -/
def keepWhenIgnoringDeclined (ev : GCalEvent) : Bool :=
  match ev.attendees with
  | none => true
  | some atts =>
    match atts.find? (fun a => a.self == some true) with
    | none => true
    | some selfAttendee =>
      if selfAttendee.responseStatus = some "declined" then false else true

/-- `listEvents` from `src/lib/google/calendarClient.ts` (lines 60–96):
fetch the window's events, then drop cancelled always, drop self-declined
when `ignoreDeclined`, drop tentative when `¬ treatTentativeAsBusy`. -/
def listEvents (env : CalendarEnv) (calendarId : String) (timeMin timeMax : Millis)
    (treatTentativeAsBusy ignoreDeclined : Bool) : Except String (List GCalEvent) := do
  let items ← env.eventsListItems calendarId timeMin timeMax
  let events := items.filter fun ev => ev.status ≠ some "cancelled"
  let events := if ignoreDeclined then events.filter keepWhenIgnoringDeclined else events
  let events :=
    if !treatTentativeAsBusy then events.filter (fun ev => ev.status ≠ some "tentative")
    else events
  pure events

/-- `checkConflictsWithFreeBusy` (lines 180–195): conflict when any
returned calendar carries a non-empty busy list. -/
def checkConflictsWithFreeBusy (env : CalendarEnv) (calendarIds : List String)
    (startMs endMs : Millis) : Except String Bool := do
  let freeBusyResults ← env.freebusyQuery calendarIds startMs endMs
  pure (freeBusyResults.any fun calendar =>
    match calendar.busy with
    | some busy => !busy.isEmpty
    | none => false)

/-- `checkConflictsWithEventsList` (lines 197–225): per calendar, fetch and
filter; any surviving event is a conflict; a per-calendar failure is caught
and enumeration continues, which is why this function is total. -/
def checkConflictsWithEventsList (env : CalendarEnv) (calendarIds : List String)
    (startMs endMs : Millis) (policy : GuardrailPolicy) : Bool :=
  match calendarIds with
  | [] => false
  | calendarId :: rest =>
    match listEvents env calendarId startMs endMs
        policy.treatTentativeAsBusy policy.ignoreDeclined with
    | .ok events =>
      if events.length > 0 then true
      else checkConflictsWithEventsList env rest startMs endMs policy
    | .error _ => checkConflictsWithEventsList env rest startMs endMs policy

/-- `checkConflictsForCalendars` (lines 160–178): primary strategy by
`policy.conflictMethod` (the string `"freebusy"` selects aggregate, anything
else the events list), with a catch-all fallback to the events list. -/
def checkConflictsForCalendars (env : CalendarEnv) (calendarIds : List String)
    (startMs endMs : Millis) (policy : GuardrailPolicy) : Except String Bool :=
  match (if policy.conflictMethod = "freebusy" then
      checkConflictsWithFreeBusy env calendarIds startMs endMs
    else
      .ok (checkConflictsWithEventsList env calendarIds startMs endMs policy)) with
  | .ok hasConflict => .ok hasConflict
  | .error _ => .ok (checkConflictsWithEventsList env calendarIds startMs endMs policy)

/-- Insertion-order deduplication: `Array.from(new Set([...]))`. -/
def dedupeFirst (seen : List String) : List String → List String
  | [] => []
  | x :: xs =>
    if x ∈ seen then dedupeFirst seen xs else x :: dedupeFirst (x :: seen) xs

/-- `checkConflicts` (lines 126–158): the target calendar unioned with
`policy.calendarsToCheck || []`, deduplicated, then probed. -/
def checkConflicts (env : CalendarEnv) (input : ValidationInput)
    (policy : GuardrailPolicy) : Except String (Option Violation) := do
  let calendarsToCheck :=
    dedupeFirst [] (input.calendarId :: policy.calendarsToCheck.getD [])
  let hasConflict ← checkConflictsForCalendars env calendarsToCheck
    input.proposedStart input.proposedEnd policy
  pure (if hasConflict then
      some { code := .TIME_CONFLICT
             message := "Proposed time overlaps a busy event."
             evaluationTimeZone := none }
    else none)

/-- `validateReschedule` (lines 20–43) with the policy passed explicitly:
run the three checks and collect the non-null violations in the fixed order
notice, business hours, conflict. -/
def validateRescheduleWith (tzdb : String → Zone) (env : CalendarEnv) (now : Millis)
    (policy : GuardrailPolicy) (input : ValidationInput) :
    Except String (List Violation) := do
  let noticeViolation := checkNoticePeriod tzdb now input policy
  let businessHoursViolation := checkBusinessHours tzdb input policy
  let conflictViolation ← checkConflicts env input policy
  pure (noticeViolation.toList ++ businessHoursViolation.toList ++
    conflictViolation.toList)

/-- `validateReschedule` as exported: it loads the policy itself via
`loadPolicy()`. -/
def validateReschedule (tzdb : String → Zone) (env : CalendarEnv) (now : Millis)
    (guardrailsJson : Option PolicyOverride) (input : ValidationInput) :
    Except String (List Violation) :=
  validateRescheduleWith tzdb env now (loadPolicy guardrailsJson) input

/-! ### Concrete fixtures used by witnesses and counterexample evaluations -/

/-- Zone database with every zone at UTC offset 0. -/
def tz0 : String → Zone := fun _ => ⟨0⟩

/-- The original event of the repository's own test fixture. -/
def sampleEvent : GCalEvent :=
  { id := "test-event-id"
    summary := some "Test Event"
    start := ⟨some "2025-09-15T10:00:00Z", none, some "UTC"⟩
    «end» := ⟨some "2025-09-15T11:00:00Z", none, some "UTC"⟩
    status := some "confirmed"
    attendees := none }

/-- 2025-09-15T10:00:00Z, a Monday (day 20346 since the epoch). -/
def mondayTenTs : Millis := 20346 * 86400000 + 10 * 3600000

/-- 2025-09-14T10:00:00Z, a Sunday (day 20345 since the epoch). -/
def sundayTenTs : Millis := 20345 * 86400000 + 10 * 3600000

/-- A Monday 10:00–11:00 UTC proposal on the primary calendar. -/
def mondayInput : ValidationInput :=
  { originalEvent := sampleEvent
    proposedStart := mondayTenTs
    proposedEnd := mondayTenTs + 3600000
    userTimeZone := some "UTC"
    calendarId := "primary"
    accessToken := "token" }

/-- Environment in which both data sources always reject. -/
def envAllFail : CalendarEnv :=
  ⟨fun _ _ _ => .error "ECONNREFUSED", fun _ _ _ => .error "ECONNREFUSED"⟩

/-- Environment with a reachable, fully free calendar. -/
def envFree : CalendarEnv := ⟨fun _ _ _ => .ok [], fun _ _ _ => .ok []⟩

/-- Now-instant 48 hours before the Monday proposal. -/
def fortyEightBefore : Millis := mondayTenTs - 48 * 3600000

/-- A proposal only 23 hours ahead of `now = 0`. -/
def noticeSoonInput : ValidationInput :=
  { mondayInput with
    proposedStart := 23 * 3600000
    proposedEnd := 24 * 3600000 }

/-- The Monday proposal moved to the preceding Sunday. -/
def sundayInput : ValidationInput :=
  { mondayInput with
    proposedStart := sundayTenTs
    proposedEnd := sundayTenTs + 3600000 }

/-- A Monday 16:00–17:00 proposal, ending exactly at closing time. -/
def mondayCloseInput : ValidationInput :=
  { mondayInput with
    proposedStart := mondayTenTs + 6 * 3600000
    proposedEnd := mondayTenTs + 7 * 3600000 }

/-- An original event whose stored start timezone is Europe/Paris. -/
def eventParis : GCalEvent :=
  { sampleEvent with start := ⟨some "2025-09-15T10:00:00+02:00", none, some "Europe/Paris"⟩ }

/-- An input whose caller timezone and original-event timezone differ, with
a proposal at the epoch instant (a Thursday, 00:00 UTC). -/
def chicagoParisInput : ValidationInput :=
  { originalEvent := eventParis
    proposedStart := 0
    proposedEnd := 3600000
    userTimeZone := some "America/Chicago"
    calendarId := "primary"
    accessToken := "token" }

/-- A cancelled event. -/
def evCancelled : GCalEvent :=
  ⟨"e1", none, ⟨none, none, none⟩, ⟨none, none, none⟩, some "cancelled", none⟩

/-- A confirmed event the caller has declined. -/
def evDeclined : GCalEvent :=
  ⟨"e2", none, ⟨none, none, none⟩, ⟨none, none, none⟩, some "confirmed",
    some [⟨some true, some "declined"⟩]⟩

/-- A tentative event. -/
def evTentative : GCalEvent :=
  ⟨"e3", none, ⟨none, none, none⟩, ⟨none, none, none⟩, some "tentative", none⟩

/-- A plain confirmed busy event. -/
def evBusy : GCalEvent :=
  ⟨"e4", none, ⟨none, none, none⟩, ⟨none, none, none⟩, some "confirmed", none⟩

/-- Environment whose events list returns one event of each kind. -/
def envFour : CalendarEnv :=
  ⟨fun _ _ _ => .ok [],
   fun _ _ _ => .ok [evCancelled, evDeclined, evTentative, evBusy]⟩

/-- Environment whose freebusy query rejects but whose events list finds a
busy event. -/
def envFbFailBusy : CalendarEnv :=
  ⟨fun _ _ _ => .error "freebusy down", fun _ _ _ => .ok [evBusy]⟩

/-- The parsed value of a `GUARDRAILS_JSON` whose Monday entry has its
start at 17:00 and its end at 09:00. -/
def badGuardrailsJson : PolicyOverride :=
  { businessHoursByWeekday := some [(1, ⟨"17:00", "09:00"⟩)] }

/-- Zone database placing every zone at UTC+9. -/
def tzNine : String → Zone := fun _ => ⟨540⟩

/-- The predicate the claims describe for the enumerate strategy's local
filtering: survive iff not cancelled, not self-declined when
`ignoreDeclined`, and not tentative when `¬ treatTentativeAsBusy`. -/
def survivesFilters (treatTentativeAsBusy ignoreDeclined : Bool) (ev : GCalEvent) : Bool :=
  decide (ev.status ≠ some "cancelled") &&
  (!ignoreDeclined || keepWhenIgnoringDeclined ev) &&
  (treatTentativeAsBusy || decide (ev.status ≠ some "tentative"))

/-! ### Helper lemmas (shared) -/

/-- Closed form of `checkNoticePeriod`. -/
theorem checkNoticePeriod_eq (tzdb : String → Zone) (now : Millis)
    (input : ValidationInput) (policy : GuardrailPolicy) :
    checkNoticePeriod tzdb now input policy =
      if noticeDiffHours now input < policy.minNoticeHours then
        some { code := .NOTICE_TOO_SOON
               message := "Proposed time is only " ++ toFixed1 (noticeDiffHours now input) ++
                 "h from now; policy requires ≥ " ++ renderNum policy.minNoticeHours ++ "h."
               evaluationTimeZone := some (noticeEvalTZ policy input) }
      else none := rfl

/-- The notice check passes when the hour difference meets the minimum. -/
theorem checkNoticePeriod_none (tzdb : String → Zone) (now : Millis)
    (input : ValidationInput) (policy : GuardrailPolicy)
    (h : policy.minNoticeHours ≤ noticeDiffHours now input) :
    checkNoticePeriod tzdb now input policy = none := by
  rw [checkNoticePeriod_eq, if_neg (not_lt.mpr h)]

/-- The notice check fails with the rendered message when the hour
difference is below the minimum. -/
theorem checkNoticePeriod_some (tzdb : String → Zone) (now : Millis)
    (input : ValidationInput) (policy : GuardrailPolicy)
    (h : noticeDiffHours now input < policy.minNoticeHours) :
    checkNoticePeriod tzdb now input policy =
      some { code := .NOTICE_TOO_SOON
             message := "Proposed time is only " ++ toFixed1 (noticeDiffHours now input) ++
               "h from now; policy requires ≥ " ++ renderNum policy.minNoticeHours ++ "h."
             evaluationTimeZone := some (noticeEvalTZ policy input) } := by
  rw [checkNoticePeriod_eq, if_pos h]

/-- The business-hours check on a weekday without an entry. -/
theorem checkBusinessHours_absent (tzdb : String → Zone) (input : ValidationInput)
    (policy : GuardrailPolicy)
    (habs : List.lookup ((bhWeekday tzdb input policy : ℕ) : ℤ)
      policy.businessHoursByWeekday = none) :
    checkBusinessHours tzdb input policy =
      some { code := .BUSINESS_HOURS_OUTSIDE
             message := "No business hours defined for " ++
               getWeekdayName (bhWeekday tzdb input policy) ++ "."
             evaluationTimeZone := some (bhEvalTZ policy input) } := by
  simp only [checkBusinessHours, habs]

/-- The business-hours check on a weekday with a parseable entry. -/
theorem checkBusinessHours_present (tzdb : String → Zone) (input : ValidationInput)
    (policy : GuardrailPolicy) (bh : BusinessHours) (sh sm eh em : ℕ)
    (hlk : List.lookup ((bhWeekday tzdb input policy : ℕ) : ℤ)
      policy.businessHoursByWeekday = some bh)
    (hs : splitClock bh.start = some (sh, sm))
    (he : splitClock bh.«end» = some (eh, em)) :
    checkBusinessHours tzdb input policy =
      if input.proposedStart <
          ((DT.mk input.proposedStart (tzdb (bhEvalTZ policy input))).set sh sm).ts ∨
        input.proposedEnd >
          ((DT.mk input.proposedStart (tzdb (bhEvalTZ policy input))).set eh em).ts then
        some { code := .BUSINESS_HOURS_OUTSIDE
               message := "Proposed time " ++
                 fmtHM (DT.mk input.proposedStart (tzdb (bhEvalTZ policy input))) ++ "–" ++
                 fmtHM (DT.mk input.proposedEnd (tzdb (bhEvalTZ policy input))) ++
                 " is outside business hours " ++ bh.start ++ "–" ++ bh.«end» ++
                 " (" ++ bhEvalTZ policy input ++ ")."
               evaluationTimeZone := some (bhEvalTZ policy input) }
      else none := by
  simp only [checkBusinessHours, hlk, hs, he]

/-- The conflict dispatcher never produces an error: the events-list branch
is total and the catch-all falls back to it. -/
theorem checkConflictsForCalendars_ok (env : CalendarEnv) (calendarIds : List String)
    (startMs endMs : Millis) (policy : GuardrailPolicy) :
    ∃ b, checkConflictsForCalendars env calendarIds startMs endMs policy = .ok b := by
  unfold checkConflictsForCalendars
  cases hx : (if policy.conflictMethod = "freebusy" then
      checkConflictsWithFreeBusy env calendarIds startMs endMs
    else .ok (checkConflictsWithEventsList env calendarIds startMs endMs policy)) with
  | ok b => exact ⟨b, by simp [hx]⟩
  | error e =>
    exact ⟨checkConflictsWithEventsList env calendarIds startMs endMs policy, by simp [hx]⟩

/-- The conflict check never produces an error. -/
theorem checkConflicts_ok (env : CalendarEnv) (input : ValidationInput)
    (policy : GuardrailPolicy) :
    ∃ cv, checkConflicts env input policy = .ok cv := by
  obtain ⟨b, hb⟩ := checkConflictsForCalendars_ok env
    (dedupeFirst [] (input.calendarId :: policy.calendarsToCheck.getD []))
    input.proposedStart input.proposedEnd policy
  refine ⟨if b then
      some { code := .TIME_CONFLICT
             message := "Proposed time overlaps a busy event."
             evaluationTimeZone := none }
    else none, ?_⟩
  simp [checkConflicts, hb, Bind.bind, Except.bind, pure, Except.pure]

/-- Closed form of `validateRescheduleWith` given the conflict outcome. -/
theorem validateRescheduleWith_eq (tzdb : String → Zone) (env : CalendarEnv)
    (now : Millis) (policy : GuardrailPolicy) (input : ValidationInput)
    (cv : Option Violation) (hcv : checkConflicts env input policy = .ok cv) :
    validateRescheduleWith tzdb env now policy input =
      .ok ((checkNoticePeriod tzdb now input policy).toList ++
        (checkBusinessHours tzdb input policy).toList ++ cv.toList) := by
  simp [validateRescheduleWith, hcv, Bind.bind, Except.bind, pure, Except.pure]

/-- `listEvents` when the fetch succeeds: the three sequential filters fuse
into the single conjunction `survivesFilters`. -/
theorem listEvents_ok (env : CalendarEnv) (calendarId : String) (timeMin timeMax : Millis)
    (tent ign : Bool) (items : List GCalEvent)
    (h : env.eventsListItems calendarId timeMin timeMax = .ok items) :
    listEvents env calendarId timeMin timeMax tent ign =
      .ok (items.filter (survivesFilters tent ign)) := by
  simp only [listEvents, h, Bind.bind, Except.bind, pure, Except.pure]
  congr 1
  cases tent <;> cases ign <;>
    simp [List.filter_filter] <;>
    exact List.filter_congr fun x _ => by
      simp [survivesFilters, Bool.and_assoc, Bool.and_comm, Bool.and_left_comm]

/-- `listEvents` when the fetch rejects. -/
theorem listEvents_error (env : CalendarEnv) (calendarId : String)
    (timeMin timeMax : Millis) (tent ign : Bool) (err : String)
    (h : env.eventsListItems calendarId timeMin timeMax = .error err) :
    listEvents env calendarId timeMin timeMax tent ign = .error err := by
  simp [listEvents, h, Bind.bind, Except.bind]

/-- The enumerate strategy signals conflict iff some calendar's fetch
succeeds with a non-empty filtered list. -/
theorem checkConflictsWithEventsList_true_iff (env : CalendarEnv)
    (calendarIds : List String) (startMs endMs : Millis) (policy : GuardrailPolicy) :
    checkConflictsWithEventsList env calendarIds startMs endMs policy = true ↔
      ∃ cal ∈ calendarIds, ∃ evs,
        listEvents env cal startMs endMs policy.treatTentativeAsBusy
          policy.ignoreDeclined = .ok evs ∧ evs ≠ [] := by
  induction calendarIds with
  | nil => simp [checkConflictsWithEventsList]
  | cons c rest ih =>
    cases hl : listEvents env c startMs endMs policy.treatTentativeAsBusy
        policy.ignoreDeclined with
    | ok evs =>
      by_cases hne : evs = []
      · subst hne
        simp [checkConflictsWithEventsList, hl, ih]
      · simp [checkConflictsWithEventsList, hl, hne, List.length_pos]
    | error e =>
      simp [checkConflictsWithEventsList, hl, ih]

/-- A calendar whose fetch rejects is skipped and enumeration continues. -/
theorem checkConflictsWithEventsList_skip_error (env : CalendarEnv)
    (calendarId : String) (rest : List String) (startMs endMs : Millis)
    (policy : GuardrailPolicy) (err : String)
    (h : env.eventsListItems calendarId startMs endMs = .error err) :
    checkConflictsWithEventsList env (calendarId :: rest) startMs endMs policy =
      checkConflictsWithEventsList env rest startMs endMs policy := by
  have hl := listEvents_error env calendarId startMs endMs
    policy.treatTentativeAsBusy policy.ignoreDeclined err h
  simp [checkConflictsWithEventsList, hl]

/-- A list-valued option with an empty `toList` is `none`. -/
theorem optToList_nil {α : Type} {o : Option α} (h : o.toList = []) : o = none := by
  cases o with
  | none => rfl
  | some v => simp [Option.toList] at h

/-- The business-hours check with an entry whose start does not parse. -/
theorem checkBusinessHours_noparse_start (tzdb : String → Zone)
    (input : ValidationInput) (policy : GuardrailPolicy) (bh : BusinessHours)
    (hlk : List.lookup ((bhWeekday tzdb input policy : ℕ) : ℤ)
      policy.businessHoursByWeekday = some bh)
    (hs : splitClock bh.start = none) :
    checkBusinessHours tzdb input policy = none := by
  simp only [checkBusinessHours, hlk, hs]

/-- The business-hours check with an entry whose end does not parse. -/
theorem checkBusinessHours_noparse_end (tzdb : String → Zone)
    (input : ValidationInput) (policy : GuardrailPolicy) (bh : BusinessHours)
    (sh sm : ℕ)
    (hlk : List.lookup ((bhWeekday tzdb input policy : ℕ) : ℤ)
      policy.businessHoursByWeekday = some bh)
    (hs : splitClock bh.start = some (sh, sm))
    (he : splitClock bh.«end» = none) :
    checkBusinessHours tzdb input policy = none := by
  simp only [checkBusinessHours, hlk, hs, he]

/-- The enumerate strategy never touches the freebusy data source. -/
theorem checkConflictsWithEventsList_freebusy_irrel (env : CalendarEnv)
    (fb₂ : List String → Millis → Millis → Except String (List FreeBusyCalendar))
    (calendarIds : List String) (startMs endMs : Millis) (policy : GuardrailPolicy) :
    checkConflictsWithEventsList { env with freebusyQuery := fb₂ } calendarIds
        startMs endMs policy =
      checkConflictsWithEventsList env calendarIds startMs endMs policy := by
  induction calendarIds with
  | nil => rfl
  | cons c rest ih =>
    unfold checkConflictsWithEventsList
    have h1 : listEvents { env with freebusyQuery := fb₂ } c startMs endMs
        policy.treatTentativeAsBusy policy.ignoreDeclined =
        listEvents env c startMs endMs policy.treatTentativeAsBusy
          policy.ignoreDeclined := rfl
    rw [h1, ih]

/-! ### Claim theorems -/

/-- C1: the spec requires that a total data-source failure (the freebusy
query rejects and the per-calendar events fetch rejects for every calendar)
surface as a hard error distinct from a `TIME_CONFLICT` violation.
Evaluated on the code at exactly that failing input, `validateReschedule`
instead succeeds with an empty violation list: the fallback enumerate
strategy swallows every per-calendar failure, returns "no conflict", and
the reschedule is silently approved. -/
theorem total_failure_silently_approves :
    validateReschedule tz0 envAllFail fortyEightBefore none mondayInput = .ok [] := by
  have hn : checkNoticePeriod tz0 fortyEightBefore mondayInput defaultPolicy = none :=
    checkNoticePeriod_none tz0 fortyEightBefore mondayInput defaultPolicy
      (by norm_num [noticeDiffHours, mondayInput, mondayTenTs, fortyEightBefore,
        defaultPolicy])
  have hb : checkBusinessHours tz0 mondayInput defaultPolicy = none := by decide
  have hc : checkConflicts envAllFail mondayInput defaultPolicy = .ok none := by decide
  have h := validateRescheduleWith_eq tz0 envAllFail fortyEightBefore defaultPolicy
    mondayInput none hc
  show validateRescheduleWith tz0 envAllFail fortyEightBefore defaultPolicy mondayInput =
    .ok []
  rw [h, hn, hb]
  rfl

/-- C2: with the aggregate (freebusy) strategy selected, a rejecting
freebusy query makes the prober fall back to the enumerate strategy over
the same window and calendar set and return its result; with the enumerate
strategy primary, the result is the enumerate verdict directly and is
independent of the freebusy data source (the fallback is one-directional). -/
theorem freebusy_failure_falls_back_to_eventsList (env : CalendarEnv)
    (calendarIds : List String) (startMs endMs : Millis) (policy : GuardrailPolicy) :
    (∀ err, policy.conflictMethod = "freebusy" →
      env.freebusyQuery calendarIds startMs endMs = .error err →
      checkConflictsForCalendars env calendarIds startMs endMs policy =
        .ok (checkConflictsWithEventsList env calendarIds startMs endMs policy)) ∧
    (policy.conflictMethod ≠ "freebusy" →
      ∀ fb₂, checkConflictsForCalendars { env with freebusyQuery := fb₂ }
          calendarIds startMs endMs policy =
        .ok (checkConflictsWithEventsList env calendarIds startMs endMs policy)) := by
  constructor
  · intro err hm herr
    simp [checkConflictsForCalendars, checkConflictsWithFreeBusy, hm, herr,
      Bind.bind, Except.bind]
  · intro hm fb₂
    simp [checkConflictsForCalendars, hm, checkConflictsWithEventsList_freebusy_irrel]

/-- Witness for C2: with the default (freebusy) policy and a rejecting
freebusy query, the dispatcher returns the enumerate strategy's verdict,
here `true` from the busy event the events list finds. -/
theorem freebusy_failure_falls_back_to_eventsList_witness :
    defaultPolicy.conflictMethod = "freebusy" ∧
    envFbFailBusy.freebusyQuery ["primary"] 0 3600000 = .error "freebusy down" ∧
    checkConflictsForCalendars envFbFailBusy ["primary"] 0 3600000 defaultPolicy =
      .ok true := by
  refine ⟨rfl, rfl, ?_⟩
  rw [(freebusy_failure_falls_back_to_eventsList envFbFailBusy ["primary"] 0 3600000
    defaultPolicy).1 "freebusy down" rfl rfl]
  decide

/-- C3: the orchestrator runs the three checks unconditionally and returns
every non-null violation in the fixed order notice, business-hours,
conflict; the empty list is the sole approved result (it occurs exactly
when all three checks pass); the exported entry point only adds policy
loading. -/
theorem validateReschedule_runs_all_three_checks (tzdb : String → Zone)
    (env : CalendarEnv) (now : Millis) (policy : GuardrailPolicy)
    (input : ValidationInput) :
    (∃ cv, checkConflicts env input policy = .ok cv ∧
      validateRescheduleWith tzdb env now policy input =
        .ok ((checkNoticePeriod tzdb now input policy).toList ++
          (checkBusinessHours tzdb input policy).toList ++ cv.toList)) ∧
    (validateRescheduleWith tzdb env now policy input = .ok [] ↔
      checkNoticePeriod tzdb now input policy = none ∧
      checkBusinessHours tzdb input policy = none ∧
      checkConflicts env input policy = .ok none) ∧
    ∀ guardrailsJson, validateReschedule tzdb env now guardrailsJson input =
      validateRescheduleWith tzdb env now (loadPolicy guardrailsJson) input := by
  obtain ⟨cv, hcv⟩ := checkConflicts_ok env input policy
  have heq := validateRescheduleWith_eq tzdb env now policy input cv hcv
  refine ⟨⟨cv, hcv, heq⟩, ?_, fun _ => rfl⟩
  rw [heq]
  constructor
  · intro h
    simp only [Except.ok.injEq] at h
    rcases List.append_eq_nil.mp h with ⟨h12, h3⟩
    rcases List.append_eq_nil.mp h12 with ⟨h1, h2⟩
    have hc3 : cv = none := optToList_nil h3
    subst hc3
    exact ⟨optToList_nil h1, optToList_nil h2, hcv⟩
  · rintro ⟨hn, hb, hc3⟩
    have hcve : cv = none := by
      have h2 := hcv.symm.trans hc3
      simpa using h2
    subst hcve
    rw [hn, hb]
    rfl

/-- Witness for C3: a fully compliant proposal over a free calendar is
approved with the empty list. -/
theorem validateReschedule_runs_all_three_checks_witness :
    validateRescheduleWith tz0 envFree fortyEightBefore defaultPolicy mondayInput =
      .ok [] := by
  have hn : checkNoticePeriod tz0 fortyEightBefore mondayInput defaultPolicy = none :=
    checkNoticePeriod_none tz0 fortyEightBefore mondayInput defaultPolicy
      (by norm_num [noticeDiffHours, mondayInput, mondayTenTs, fortyEightBefore,
        defaultPolicy])
  exact (validateReschedule_runs_all_three_checks tz0 envFree fortyEightBefore
    defaultPolicy mondayInput).2.1.mpr ⟨hn, by decide, by decide⟩

/-- C4: the notice check fails (with exactly one NOTICE_TOO_SOON violation,
whose message renders the fractional hour difference to one decimal place)
precisely when `diffHours < minNoticeHours`; it passes when
`diffHours ≥ minNoticeHours`, in particular on the boundary
`diffHours = minNoticeHours`. -/
theorem notice_check_characterisation (tzdb : String → Zone) (now : Millis)
    (input : ValidationInput) (policy : GuardrailPolicy) :
    (checkNoticePeriod tzdb now input policy = none ↔
      policy.minNoticeHours ≤ noticeDiffHours now input) ∧
    (noticeDiffHours now input < policy.minNoticeHours →
      checkNoticePeriod tzdb now input policy =
        some { code := .NOTICE_TOO_SOON
               message := "Proposed time is only " ++
                 toFixed1 (noticeDiffHours now input) ++
                 "h from now; policy requires ≥ " ++
                 renderNum policy.minNoticeHours ++ "h."
               evaluationTimeZone := some (noticeEvalTZ policy input) }) ∧
    (noticeDiffHours now input = policy.minNoticeHours →
      checkNoticePeriod tzdb now input policy = none) := by
  refine ⟨?_, checkNoticePeriod_some tzdb now input policy, ?_⟩
  · rw [checkNoticePeriod_eq]
    by_cases h : noticeDiffHours now input < policy.minNoticeHours
    · rw [if_pos h]
      constructor
      · intro hx
        simp at hx
      · intro hle
        exact absurd h (not_lt.mpr hle)
    · rw [if_neg h]
      simp [not_lt.mp h]
  · intro h
    exact checkNoticePeriod_none tzdb now input policy (le_of_eq h.symm)

/-- Witness for C4: a proposal 23 hours ahead fails with the rendered
message "23.0h from now". -/
theorem notice_check_characterisation_witness :
    noticeDiffHours 0 noticeSoonInput < defaultPolicy.minNoticeHours ∧
    checkNoticePeriod tz0 0 noticeSoonInput defaultPolicy =
      some { code := .NOTICE_TOO_SOON
             message := "Proposed time is only 23.0h from now; policy requires ≥ 24h."
             evaluationTimeZone := some "UTC" } := by
  have hlt : noticeDiffHours 0 noticeSoonInput < defaultPolicy.minNoticeHours := by
    norm_num [noticeDiffHours, noticeSoonInput, mondayInput, defaultPolicy]
  refine ⟨hlt, ?_⟩
  rw [(notice_check_characterisation tz0 0 noticeSoonInput defaultPolicy).2.1 hlt]
  have hd : noticeDiffHours 0 noticeSoonInput = 23 := by
    norm_num [noticeDiffHours, noticeSoonInput, mondayInput]
  rw [hd]
  have hf : (⌊10 * (23 : ℚ) + 1 / 2⌋ : ℤ) = 230 := by norm_num
  simp only [toFixed1]
  rw [if_neg (by norm_num : ¬ (23 : ℚ) < 0)]
  simp only [toFixed1Abs]
  rw [hf]
  decide

/-- C5: a proposal whose start falls on a weekday without a business-hours
entry fails with BUSINESS_HOURS_OUTSIDE and a message naming that weekday;
the weekday index runs 0 = Sunday … 6 = Saturday. -/
theorem businessHours_absent_weekday (tzdb : String → Zone)
    (input : ValidationInput) (policy : GuardrailPolicy)
    (habs : List.lookup ((bhWeekday tzdb input policy : ℕ) : ℤ)
      policy.businessHoursByWeekday = none) :
    checkBusinessHours tzdb input policy =
      some { code := .BUSINESS_HOURS_OUTSIDE
             message := "No business hours defined for " ++
               getWeekdayName (bhWeekday tzdb input policy) ++ "."
             evaluationTimeZone := some (bhEvalTZ policy input) } ∧
    bhWeekday tzdb input policy < 7 ∧
    getWeekdayName 0 = "Sunday" ∧ getWeekdayName 6 = "Saturday" := by
  refine ⟨checkBusinessHours_absent tzdb input policy habs, ?_, rfl, rfl⟩
  unfold bhWeekday
  exact Nat.mod_lt _ (by norm_num)

/-- Witness for C5: the default policy has no Sunday entry; a Sunday
proposal is rejected with the message naming Sunday, and the Sunday
weekday index is 0. -/
theorem businessHours_absent_weekday_witness :
    List.lookup ((bhWeekday tz0 sundayInput defaultPolicy : ℕ) : ℤ)
      defaultPolicy.businessHoursByWeekday = none ∧
    bhWeekday tz0 sundayInput defaultPolicy = 0 ∧
    checkBusinessHours tz0 sundayInput defaultPolicy =
      some { code := .BUSINESS_HOURS_OUTSIDE
             message := "No business hours defined for Sunday."
             evaluationTimeZone := some "UTC" } := by
  refine ⟨by decide, by decide, ?_⟩
  rw [(businessHours_absent_weekday tz0 sundayInput defaultPolicy (by decide)).1]
  decide

/-- C6: on a weekday with a parseable `{start, end}` entry, the open and
close instants are built on the proposed start's calendar date in the
evaluation timezone (so an end past midnight is still compared against the
start day's close), and the check fails exactly when
`proposedStart < open ∨ proposedEnd > close`; in particular
`open ≤ proposedStart ∧ proposedEnd ≤ close` passes, including
`proposedEnd = close`, and every failure carries BUSINESS_HOURS_OUTSIDE. -/
theorem businessHours_window_characterisation (tzdb : String → Zone)
    (input : ValidationInput) (policy : GuardrailPolicy) (bh : BusinessHours)
    (sh sm eh em : ℕ)
    (hlk : List.lookup ((bhWeekday tzdb input policy : ℕ) : ℤ)
      policy.businessHoursByWeekday = some bh)
    (hs : splitClock bh.start = some (sh, sm))
    (he : splitClock bh.«end» = some (eh, em)) :
    ((checkBusinessHours tzdb input policy).isSome ↔
      (input.proposedStart <
          ((DT.mk input.proposedStart (tzdb (bhEvalTZ policy input))).set sh sm).ts ∨
        input.proposedEnd >
          ((DT.mk input.proposedStart (tzdb (bhEvalTZ policy input))).set eh em).ts)) ∧
    (((DT.mk input.proposedStart (tzdb (bhEvalTZ policy input))).set sh sm).ts ≤
          input.proposedStart ∧
        input.proposedEnd ≤
          ((DT.mk input.proposedStart (tzdb (bhEvalTZ policy input))).set eh em).ts →
      checkBusinessHours tzdb input policy = none) ∧
    (∀ v, checkBusinessHours tzdb input policy = some v →
      v.code = .BUSINESS_HOURS_OUTSIDE) := by
  have heq := checkBusinessHours_present tzdb input policy bh sh sm eh em hlk hs he
  refine ⟨?_, ?_, ?_⟩
  · rw [heq]
    split <;> rename_i h
    · simp [h]
    · simp [h]
  · rintro ⟨h1, h2⟩
    rw [heq, if_neg (not_or.mpr ⟨not_lt.mpr h1, not_lt.mpr h2⟩)]
  · intro v hv
    rw [heq] at hv
    split at hv
    · cases hv
      rfl
    · simp at hv

/-- Witness for C6: a Monday 16:00–17:00 proposal against 09:00–17:00
hours ends exactly at close and passes. -/
theorem businessHours_window_characterisation_witness :
    List.lookup ((bhWeekday tz0 mondayCloseInput defaultPolicy : ℕ) : ℤ)
      defaultPolicy.businessHoursByWeekday = some ⟨"09:00", "17:00"⟩ ∧
    splitClock "09:00" = some (9, 0) ∧ splitClock "17:00" = some (17, 0) ∧
    mondayCloseInput.proposedEnd =
      ((DT.mk mondayCloseInput.proposedStart
        (tz0 (bhEvalTZ defaultPolicy mondayCloseInput))).set 17 0).ts ∧
    checkBusinessHours tz0 mondayCloseInput defaultPolicy = none := by
  refine ⟨by decide, by decide, by decide, by decide, ?_⟩
  exact (businessHours_window_characterisation tz0 mondayCloseInput defaultPolicy
    ⟨"09:00", "17:00"⟩ 9 0 17 0 (by decide) (by decide) (by decide)).2.1 (by decide)

/-- C7: the two checks use different evaluation-timezone fallback chains on
every call: the notice check falls back from the policy timezone to the
caller's timezone to UTC, the business-hours check from the policy timezone
to the original event's stored start timezone to UTC (a set policy timezone
means a non-empty one, JS `||` being the fallback operator), and each
check's violation reports its own chain's result in its details. -/
theorem evaluation_timeZone_fallback_chains (tzdb : String → Zone) (now : Millis)
    (input : ValidationInput) (policy : GuardrailPolicy) :
    noticeEvalTZ policy input =
      jsOrStr policy.policyTimeZone (jsOrStr input.userTimeZone "UTC") ∧
    bhEvalTZ policy input =
      jsOrStr policy.policyTimeZone
        (jsOrStr input.originalEvent.start.timeZone "UTC") ∧
    (∀ s, s ≠ "" → ∀ b, jsOrStr (some s) b = s) ∧
    (∀ b, jsOrStr none b = b) ∧
    (∀ b, jsOrStr (some "") b = b) ∧
    (∀ v, checkNoticePeriod tzdb now input policy = some v →
      v.evaluationTimeZone = some (noticeEvalTZ policy input)) ∧
    (∀ v, checkBusinessHours tzdb input policy = some v →
      v.evaluationTimeZone = some (bhEvalTZ policy input)) := by
  refine ⟨rfl, rfl, ?_, fun _ => rfl, fun _ => by simp [jsOrStr], ?_, ?_⟩
  · intro s hs b
    simp [jsOrStr, hs]
  · intro v hv
    rw [checkNoticePeriod_eq] at hv
    split at hv
    · cases hv
      rfl
    · simp at hv
  · intro v hv
    cases hlk : List.lookup ((bhWeekday tzdb input policy : ℕ) : ℤ)
        policy.businessHoursByWeekday with
    | none =>
      rw [checkBusinessHours_absent tzdb input policy hlk] at hv
      cases hv
      rfl
    | some bh =>
      cases hs : splitClock bh.start with
      | none =>
        rw [checkBusinessHours_noparse_start tzdb input policy bh hlk hs] at hv
        simp at hv
      | some p =>
        obtain ⟨sh, sm⟩ := p
        cases he : splitClock bh.«end» with
        | none =>
          rw [checkBusinessHours_noparse_end tzdb input policy bh sh sm hlk hs he] at hv
          simp at hv
        | some q =>
          obtain ⟨eh, em⟩ := q
          rw [checkBusinessHours_present tzdb input policy bh sh sm eh em hlk hs he] at hv
          split at hv
          · cases hv
            rfl
          · simp at hv

/-- Witness for C7: with no policy timezone, a caller in America/Chicago
and an original event stored in Europe/Paris, the notice violation reports
America/Chicago and the business-hours violation reports Europe/Paris. -/
theorem evaluation_timeZone_fallback_chains_witness :
    noticeEvalTZ defaultPolicy chicagoParisInput = "America/Chicago" ∧
    bhEvalTZ defaultPolicy chicagoParisInput = "Europe/Paris" ∧
    (∃ v, checkNoticePeriod tz0 0 chicagoParisInput defaultPolicy = some v ∧
      v.evaluationTimeZone = some "America/Chicago") ∧
    (∃ v, checkBusinessHours tz0 chicagoParisInput defaultPolicy = some v ∧
      v.evaluationTimeZone = some "Europe/Paris") := by
  have hlt : noticeDiffHours 0 chicagoParisInput < defaultPolicy.minNoticeHours := by
    norm_num [noticeDiffHours, chicagoParisInput, defaultPolicy]
  have hv := checkNoticePeriod_some tz0 0 chicagoParisInput defaultPolicy hlt
  have hbs : (checkBusinessHours tz0 chicagoParisInput defaultPolicy).isSome := by decide
  obtain ⟨w, hw⟩ := Option.isSome_iff_exists.mp hbs
  refine ⟨rfl, rfl, ⟨_, hv, ?_⟩, ⟨w, hw, ?_⟩⟩
  · exact (evaluation_timeZone_fallback_chains tz0 0 chicagoParisInput
      defaultPolicy).2.2.2.2.2.1 _ hv
  · exact (evaluation_timeZone_fallback_chains tz0 0 chicagoParisInput
      defaultPolicy).2.2.2.2.2.2 w hw

/-- C8: under the enumerate strategy, the fetched events are filtered by
exactly the conjunction "not cancelled, not self-declined when
`ignoreDeclined`, not tentative when `¬ treatTentativeAsBusy`"; a conflict
is reported iff some calendar's fetch succeeds with a survivor; and a
calendar whose fetch rejects is skipped while enumeration continues. -/
theorem enumerate_strategy_characterisation (env : CalendarEnv) (calendarId : String)
    (calendarIds : List String) (startMs endMs : Millis) (policy : GuardrailPolicy)
    (tent ign : Bool) :
    (∀ items, env.eventsListItems calendarId startMs endMs = .ok items →
      listEvents env calendarId startMs endMs tent ign =
        .ok (items.filter (survivesFilters tent ign))) ∧
    (checkConflictsWithEventsList env calendarIds startMs endMs policy = true ↔
      ∃ cal ∈ calendarIds, ∃ evs,
        listEvents env cal startMs endMs policy.treatTentativeAsBusy
          policy.ignoreDeclined = .ok evs ∧ evs ≠ []) ∧
    (∀ err rest, env.eventsListItems calendarId startMs endMs = .error err →
      checkConflictsWithEventsList env (calendarId :: rest) startMs endMs policy =
        checkConflictsWithEventsList env rest startMs endMs policy) :=
  ⟨fun items h => listEvents_ok env calendarId startMs endMs tent ign items h,
    checkConflictsWithEventsList_true_iff env calendarIds startMs endMs policy,
    fun err rest h => checkConflictsWithEventsList_skip_error env calendarId rest
      startMs endMs policy err h⟩

/-- Witness for C8: of a cancelled, a self-declined, a tentative and a
confirmed event, with `ignoreDeclined` and `¬ treatTentativeAsBusy` only
the confirmed one survives; and a rejecting calendar is skipped. -/
theorem enumerate_strategy_characterisation_witness :
    envFour.eventsListItems "primary" 0 3600000 =
      .ok [evCancelled, evDeclined, evTentative, evBusy] ∧
    listEvents envFour "primary" 0 3600000 false true = .ok [evBusy] ∧
    checkConflictsWithEventsList envAllFail ["primary"] 0 3600000 defaultPolicy =
      false := by
  refine ⟨rfl, ?_, ?_⟩
  · rw [(enumerate_strategy_characterisation envFour "primary" [] 0 3600000
      defaultPolicy false true).1 [evCancelled, evDeclined, evTentative, evBusy] rfl]
    decide
  · rw [(enumerate_strategy_characterisation envAllFail "primary" [] 0 3600000
      defaultPolicy false true).2.2 "ECONNREFUSED" [] rfl]
    rfl

/-- C9: the spec requires malformed policies (such as a weekday entry whose
start does not strictly precede its end) to be rejected at policy-load
time. Evaluated on the code, `loadPolicy` merges such a `GUARDRAILS_JSON`
override into the default policy and returns it without any validation —
the code's own `validatePolicy` flags exactly this policy, but nothing ever
invokes it. -/
theorem loadPolicy_returns_unvalidated_policy :
    loadPolicy (some badGuardrailsJson) =
      { defaultPolicy with businessHoursByWeekday := [(1, ⟨"17:00", "09:00"⟩)] } ∧
    validatePolicy (fun _ => true) (loadPolicy (some badGuardrailsJson)) =
      ["Start time must be before end time for weekday 1"] := by
  constructor
  · decide
  · decide

/-- C10: the notice check's hour difference and pass/fail decision are
invariant under every change of evaluation timezone (policy timezone,
caller timezone, and even the ambient zone database): only the diagnostic
timezone detail can differ between two runs, never the code or message. -/
theorem notice_decision_independent_of_timeZones (tzdb₁ tzdb₂ : String → Zone)
    (now : Millis) (input : ValidationInput) (policy : GuardrailPolicy)
    (ptzA ptzB utzA utzB : Option String) :
    noticeDiffHours now { input with userTimeZone := utzA } =
      noticeDiffHours now { input with userTimeZone := utzB } ∧
    Option.map (fun v => (v.code, v.message))
        (checkNoticePeriod tzdb₁ now { input with userTimeZone := utzA }
          { policy with policyTimeZone := ptzA }) =
      Option.map (fun v => (v.code, v.message))
        (checkNoticePeriod tzdb₂ now { input with userTimeZone := utzB }
          { policy with policyTimeZone := ptzB }) := by
  refine ⟨rfl, ?_⟩
  rcases lt_or_ge (noticeDiffHours now input) policy.minNoticeHours with h | h
  · rw [checkNoticePeriod_some tzdb₁ now { input with userTimeZone := utzA }
        { policy with policyTimeZone := ptzA }
        (show noticeDiffHours now { input with userTimeZone := utzA } <
          ({ policy with policyTimeZone := ptzA } : GuardrailPolicy).minNoticeHours
          from h),
      checkNoticePeriod_some tzdb₂ now { input with userTimeZone := utzB }
        { policy with policyTimeZone := ptzB }
        (show noticeDiffHours now { input with userTimeZone := utzB } <
          ({ policy with policyTimeZone := ptzB } : GuardrailPolicy).minNoticeHours
          from h)]
    rfl
  · rw [checkNoticePeriod_none tzdb₁ now { input with userTimeZone := utzA }
        { policy with policyTimeZone := ptzA }
        (show ({ policy with policyTimeZone := ptzA } : GuardrailPolicy).minNoticeHours ≤
          noticeDiffHours now { input with userTimeZone := utzA } from h),
      checkNoticePeriod_none tzdb₂ now { input with userTimeZone := utzB }
        { policy with policyTimeZone := ptzB }
        (show ({ policy with policyTimeZone := ptzB } : GuardrailPolicy).minNoticeHours ≤
          noticeDiffHours now { input with userTimeZone := utzB } from h)]

/-- Witness for C10: the too-soon proposal judged under two different
policy/caller timezones and two different zone databases produces the same
code and message. -/
theorem notice_decision_independent_of_timeZones_witness :
    Option.map (fun v => (v.code, v.message))
        (checkNoticePeriod tz0 0
          { noticeSoonInput with userTimeZone := some "Asia/Tokyo" }
          { defaultPolicy with policyTimeZone := some "America/New_York" }) =
      Option.map (fun v => (v.code, v.message))
        (checkNoticePeriod tzNine 0 { noticeSoonInput with userTimeZone := none }
          { defaultPolicy with policyTimeZone := none }) :=
  (notice_decision_independent_of_timeZones tz0 tzNine 0 noticeSoonInput defaultPolicy
    (some "America/New_York") none (some "Asia/Tokyo") none).2

end Gcal
